import Mathlib

/-!
Verification of the just-paste-backend download orchestrator (src/main.py).

The source is a small Flask app around the yt-dlp engine. We shallowly embed
the pieces the specification talks about:

* `get_ydl_opts` — engine option resolution (src/main.py lines 59-79);
* `download_single` — the bounded retry loop plus the locate-by-prefix scan
  (lines 81-99); the external engine is a parameter, the directory listing
  is a parameter (the value of `os.listdir`);
* `download_get` — the HTTP endpoint body after the authentication
  decorator (lines 110-135), with the persistence store and the scratch
  directory removal modelled as collaborators;
* `history` — the history endpoint (lines 137-142).

Machine-level details (network, real filesystem) are abstracted into
explicit inputs; every path of the Python control flow is reproduced.
-/

namespace JustPaste

/-- Embeds `MAX_DOWNLOAD_RETRIES = 2` (src/main.py line 27). -/
def MAX_DOWNLOAD_RETRIES : Nat := 2

/-- One yt-dlp postprocessor entry, as built in `get_ydl_opts` for mp3. -/
structure Postprocessor where
  key : String
  preferredcodec : String
  preferredquality : String
deriving DecidableEq

/-- The engine option dictionary returned by `get_ydl_opts`. Fields absent
from a branch of the Python dict literal are `none` or `[]`. -/
structure YdlOpts where
  format : String
  outtmpl : String
  merge_output_format : Option String
  postprocessors : List Postprocessor
  retries : Nat
deriving DecidableEq

/-- Embeds `get_ydl_opts(fmt, quality, tpl)` (src/main.py lines 59-79).
The Python function raises `ValueError` for unsupported formats; we model
raising with `Except.error` carrying the exception message. Note that the
parameter `quality` is never read by the source function. -/
def get_ydl_opts (fmt quality tpl : String) : Except String YdlOpts :=
  if fmt == "mp4" then
    Except.ok { format := "bestvideo+bestaudio/best", outtmpl := tpl,
                merge_output_format := some "mp4", postprocessors := [],
                retries := MAX_DOWNLOAD_RETRIES }
  else if fmt == "mp3" then
    Except.ok { format := "bestaudio/best", outtmpl := tpl,
                merge_output_format := none,
                postprocessors := [{ key := "FFmpegExtractAudio",
                                     preferredcodec := "mp3",
                                     preferredquality := "192" }],
                retries := MAX_DOWNLOAD_RETRIES }
  else
    Except.error ("Unsupported format: " ++ fmt)

/-- Embeds `os.path.join(d, f)` for the shapes used in src/main.py: the
first component is a non-empty directory path without a trailing slash and
the second a relative filename, so the join is concatenation with `/`. -/
def joinPath (d f : String) : String := d ++ "/" ++ f

/-- Splitting a character list at every occurrence of a separator; the
executable core of Python `str.split(sep)` for a one-character separator.
Always returns a non-empty list of (possibly empty) segments. -/
def splitOnChar (sep : Char) : List Char → List (List Char)
  | [] => [[]]
  | c :: cs =>
    let r := splitOnChar sep cs
    if c = sep then [] :: r
    else
      match r with
      | [] => [[c]]
      | h :: t => (c :: h) :: t

/-- Python `s.split(sep)` for a one-character separator. -/
def pySplit (s : String) (sep : Char) : List String :=
  (splitOnChar sep s.data).map (fun l => String.mk l)

/-- Rejoins path segments with `/`; the executable core of
`os.path.dirname`. -/
def joinSlash : List String → String
  | [] => ""
  | [s] => s
  | s :: rest => s ++ "/" ++ joinSlash rest

/-- Embeds `os.path.dirname(p)`: everything before the last `/`. -/
def dirname (p : String) : String :=
  joinSlash ((pySplit p '/').dropLast)

/-- Embeds `os.path.basename(p)`: everything after the last `/`. -/
def basename (p : String) : String :=
  (pySplit p '/').getLastD ""

/-- Embeds `os.path.basename(tpl).split('.')[0]` (src/main.py line 95):
the template filename up to its first dot. -/
def templatePfx (tpl : String) : String :=
  (pySplit (basename tpl) '.').headD ""

/-- Python `s.startswith(pre)`. -/
def pyStartswith (s pre : String) : Bool :=
  List.isPrefixOf pre.data s.data

/-- Python `s.endswith(suf)`. -/
def pyEndswith (s suf : String) : Bool :=
  List.isSuffixOf suf.data s.data

/-- Python `s.lower()` on the ASCII names this program handles. -/
def pyLower (s : String) : String :=
  String.mk (s.data.map Char.toLower)

/-- The typed failures `download_single` can raise: `ValueError` from
option resolution, the re-raised engine exception after the last attempt,
and `FileNotFoundError` from the locator. Each carries the Python
exception message, which is what `str(e)` yields at the endpoint. -/
inductive DownloadError where
  | unsupportedFormat (msg : String)
  | engineError (msg : String)
  | fileNotFound (msg : String)
deriving DecidableEq

/-- The message of a download error, i.e. `str(e)` in the endpoint. -/
def DownloadError.message : DownloadError → String
  | .unsupportedFormat m => m
  | .engineError m => m
  | .fileNotFound m => m

/-- Embeds the locate-by-prefix scan (src/main.py lines 96-98): walk the
directory listing in order and return the joined path of the first entry
whose name starts with the prefix and whose lowercased name ends with the
requested format string. `none` models falling through to the
`FileNotFoundError` raise. -/
def locate (d pfx fmt : String) : List String → Option String
  | [] => none
  | fname :: rest =>
    if pyStartswith fname pfx && pyEndswith (pyLower fname) fmt then
      some (joinPath d fname)
    else
      locate d pfx fmt rest

/-- Embeds the `for attempt in range(MAX_DOWNLOAD_RETRIES)` loop of
`download_single` (src/main.py lines 83-91), folded over the list of
attempt indices. `engine a` is the outcome of `ydl.download([url])` on
attempt `a` (`Except.error` models a raised exception). Returns the loop
outcome (`Except.error e` models the re-raise on the last attempt,
`Except.ok ()` the `break` or falling off the range), the number of engine
invocations performed, and the warning lines logged. -/
def attemptLoop (engine : Nat → Except String Unit) :
    List Nat → Except String Unit × Nat × List String
  | [] => (Except.ok (), 0, [])
  | a :: rest =>
    match engine a with
    | Except.ok _ => (Except.ok (), 1, [])
    | Except.error e =>
      let w := "Attempt " ++ toString (a + 1) ++ " failed: " ++ e
      if rest = [] then
        (Except.error e, 1, [w])
      else
        let r := attemptLoop engine rest
        (r.1, r.2.1 + 1, w :: r.2.2)

/-- Embeds `download_single(url, fmt, quality, tpl)` (src/main.py lines
81-99). The external engine is a parameter: given the resolved options,
the url and the attempt index it either succeeds or raises with a message.
`listdir` is the value of `os.listdir(d)` after the loop. The result pairs
the returned path or raised error with the number of engine invocations
made. -/
def download_single (url fmt quality tpl : String)
    (engine : YdlOpts → String → Nat → Except String Unit)
    (listdir : List String) : Except DownloadError String × Nat :=
  match get_ydl_opts fmt quality tpl with
  | Except.error m => (Except.error (DownloadError.unsupportedFormat m), 0)
  | Except.ok opts =>
    let r := attemptLoop (fun a => engine opts url a) (List.range MAX_DOWNLOAD_RETRIES)
    match r.1 with
    | Except.error e => (Except.error (DownloadError.engineError e), r.2.1)
    | Except.ok _ =>
      let d := dirname tpl
      let pfx := templatePfx tpl
      match locate d pfx fmt listdir with
      | some p => (Except.ok p, r.2.1)
      | none =>
        (Except.error (DownloadError.fileNotFound
          ("No ." ++ fmt ++ " file found for " ++ pfx)), r.2.1)

/-- One row of the `DownloadHistory` table (src/main.py lines 29-34).
`id` and `timestamp` are assigned by the store at write time; `timestamp`
is an abstract instant. -/
structure HistoryRecord where
  id : Nat
  url : String
  file_format : String
  quality : String
  timestamp : Nat
deriving DecidableEq

/-- The body of an HTTP response produced by the endpoints: a
`jsonify({error: msg})` payload, a `jsonify` of history rows, or a
`send_file` attachment with its download name. -/
inductive Body where
  | jsonError (msg : String)
  | jsonRecords (recs : List HistoryRecord)
  | file (path : String) (downloadName : String)
deriving DecidableEq

/-- Status code plus body, the observable endpoint result. -/
structure HttpResponse where
  status : Nat
  body : Body
deriving DecidableEq

/-- What one evaluation of the `download_get` view leaves behind: the HTTP
response, the final content of the history store, and how many times the
scratch directory removal ran. -/
structure DGOutcome where
  response : HttpResponse
  hist : List HistoryRecord
  cleanupCalls : Nat
deriving DecidableEq

/-- Python truthiness test `not x` for `request.args.get` results:
`None` and the empty string are falsy. -/
def pyFalsy : Option String → Bool
  | none => true
  | some s => s.isEmpty

/-- Modelled from the spec: `shutil.rmtree(path, ignore_errors=...)`, the
external collaborator removing the scratch directory. The spec requires it
to be tolerant of deletion errors: when `ignore_errors` is set, any
underlying deletion failure (`deletionFails`) is swallowed and the call
returns normally; without it, a failing deletion raises. -/
def rmtree (ignore_errors deletionFails : Bool) : Except String Unit :=
  if deletionFails && !ignore_errors then Except.error "rmtree error"
  else Except.ok ()

/-- Modelled from the spec: the persistence collaborator appending one
`HistoryRecord` with a store-assigned monotonic id and a write-time
timestamp (`now`), as performed by `db.session.add` plus `commit` at
src/main.py lines 124-126. -/
def dbAppend (hist : List HistoryRecord) (url fmt quality : String)
    (now : Nat) : List HistoryRecord :=
  hist ++ [{ id := hist.length + 1, url := url, file_format := fmt,
             quality := quality, timestamp := now }]

/-- Embeds the body of the `download_get` view after the API-key decorator
(src/main.py lines 110-135). `url?`, `fmt?`, `quality?` are the query
parameters (`none` when absent), `tmp` the directory `tempfile.mkdtemp()`
produced, `now` the write-time instant of the store, `hist` the prior
store content and `rmFail` whether the scratch deletion hits an error.
The try/except/finally is reproduced: every path through the try body ends
in the `shutil.rmtree(tmp, ignore_errors=True)` of the finally block, any
exception from `download_single` is answered with a 500 carrying
`str(e)`, and the history row is added only after a successful download
and location. -/
def download_get (url? fmt? quality? : Option String)
    (engine : YdlOpts → String → Nat → Except String Unit)
    (listdir : List String) (tmp : String) (now : Nat)
    (hist : List HistoryRecord) (rmFail : Bool) : DGOutcome :=
  if pyFalsy url? || pyFalsy fmt? then
    { response := { status := 400, body := Body.jsonError "Missing url or format" },
      hist := hist, cleanupCalls := 0 }
  else
    let url := url?.getD ""
    let fmt := fmt?.getD ""
    let quality := quality?.getD "best"
    let tpl := joinPath tmp "dl.%(ext)s"
    let inner : HttpResponse × List HistoryRecord :=
      match download_single url fmt quality tpl engine listdir with
      | (Except.ok path, _) =>
        ({ status := 200, body := Body.file path ("JustPaste." ++ fmt) },
          dbAppend hist url fmt quality now)
      | (Except.error e, _) =>
        ({ status := 500, body := Body.jsonError e.message }, hist)
    match rmtree true rmFail with
    | Except.ok _ =>
      { response := inner.1, hist := inner.2, cleanupCalls := 1 }
    | Except.error _ =>
      { response := { status := 500, body := Body.jsonError "Internal Server Error" },
        hist := inner.2, cleanupCalls := 1 }

/-- Modelled from the spec: the store query
`DownloadHistory.query.order_by(DownloadHistory.timestamp.desc()).all()`
(src/main.py lines 140-141), i.e. all rows sorted by timestamp
descending. The sort itself is performed by the external store; we model
it with a merge sort under the reversed timestamp order. -/
def orderByTimestampDesc (recs : List HistoryRecord) : List HistoryRecord :=
  recs.mergeSort (fun a b => Nat.ble b.timestamp a.timestamp)

/-- Embeds the `history` view (src/main.py lines 137-142): return every
stored row, most recent first. -/
def history (recs : List HistoryRecord) : List HistoryRecord :=
  orderByTimestampDesc recs

end JustPaste

namespace JustPaste

/-- The scan of `locate` is exactly a first-match search over the listing:
it returns the join of the first entry satisfying the prefix and suffix
test, in listing order. -/
theorem locate_eq_find (d pfx fmt : String) (entries : List String) :
    locate d pfx fmt entries =
      (entries.find? fun n => pyStartswith n pfx && pyEndswith (pyLower n) fmt).map
        (fun n => joinPath d n) := by
  induction entries with
  | nil => rfl
  | cons a t ih =>
    by_cases h : (pyStartswith a pfx && pyEndswith (pyLower a) fmt) = true
    · simp [locate, h, List.find?_cons_of_pos]
    · simp [locate, h, List.find?_cons_of_neg, ih]

/-- Claim C1: for every request whose format is neither mp4 nor mp3,
`download_single` fails during option resolution with the
`Unsupported format` ValueError, with zero engine invocations; the result
does not depend on the engine or on the directory listing, so no engine
call and no directory scan has occurred. -/
theorem C1_unsupported_format_fails_fast
    (url fmt quality tpl : String)
    (engine : YdlOpts → String → Nat → Except String Unit)
    (listdir : List String)
    (h4 : fmt ≠ "mp4") (h3 : fmt ≠ "mp3") :
    download_single url fmt quality tpl engine listdir =
      (Except.error (DownloadError.unsupportedFormat
        ("Unsupported format: " ++ fmt)), 0) := by
  simp [download_single, get_ydl_opts, h4, h3]

/-- Concrete instance of C1: a `wav` request fails immediately with the
ValueError message and zero engine invocations. -/
theorem C1_witness :
    download_single "https://x/video" "wav" "best" "/t/dl.%(ext)s"
        (fun _ _ _ => Except.ok ()) [] =
      (Except.error (DownloadError.unsupportedFormat
        "Unsupported format: wav"), 0) :=
  C1_unsupported_format_fails_fast _ _ _ _ _ _ (by decide) (by decide)

/-- Claim C2: when the engine fails on every attempt, the loop performs
exactly `MAX_DOWNLOAD_RETRIES` (which is 2) engine invocations and the
error of the last attempt is the one re-raised to the caller. -/
theorem C2_engine_exhausted
    (url fmt quality tpl e0 e1 : String)
    (engine : YdlOpts → String → Nat → Except String Unit)
    (listdir : List String)
    (hfmt : fmt = "mp4" ∨ fmt = "mp3")
    (h0 : ∀ opts, engine opts url 0 = Except.error e0)
    (h1 : ∀ opts, engine opts url 1 = Except.error e1) :
    MAX_DOWNLOAD_RETRIES = 2 ∧
    download_single url fmt quality tpl engine listdir =
      (Except.error (DownloadError.engineError e1), MAX_DOWNLOAD_RETRIES) := by
  refine ⟨rfl, ?_⟩
  have hr : List.range MAX_DOWNLOAD_RETRIES = [0, 1] := rfl
  rcases hfmt with h | h <;> subst h <;>
    simp [download_single, get_ydl_opts, hr, attemptLoop, h0, h1,
      MAX_DOWNLOAD_RETRIES]

/-- Concrete instance of C2: an engine failing both attempts with the same
message yields that message as the propagated error after 2 calls. -/
theorem C2_witness :
    MAX_DOWNLOAD_RETRIES = 2 ∧
    download_single "https://x/video" "mp4" "best" "/t/dl.%(ext)s"
        (fun _ _ _ => Except.error "network error") [] =
      (Except.error (DownloadError.engineError "network error"),
        MAX_DOWNLOAD_RETRIES) :=
  C2_engine_exhausted _ _ _ _ _ _ _ _ (Or.inl rfl)
    (fun _ => rfl) (fun _ => rfl)

/-- Claim C3: when the engine succeeds on the first attempt, exactly one
engine invocation occurs — the loop breaks at once. -/
theorem C3_success_first_attempt_one_call
    (url fmt quality tpl : String)
    (engine : YdlOpts → String → Nat → Except String Unit)
    (listdir : List String)
    (hfmt : fmt = "mp4" ∨ fmt = "mp3")
    (h0 : ∀ opts, engine opts url 0 = Except.ok ()) :
    (download_single url fmt quality tpl engine listdir).2 = 1 := by
  have hr : List.range MAX_DOWNLOAD_RETRIES = [0, 1] := rfl
  rcases hfmt with h | h <;> subst h <;>
    simp [download_single, get_ydl_opts, hr, attemptLoop, h0] <;>
    cases locate (dirname tpl) (templatePfx tpl) _ listdir <;> rfl

/-- Concrete instance of C3: a first-attempt success makes exactly one
engine call. -/
theorem C3_witness :
    (download_single "https://x/video" "mp4" "best" "/t/dl.%(ext)s"
        (fun _ _ _ => Except.ok ()) ["dl.mp4"]).2 = 1 :=
  C3_success_first_attempt_one_call _ _ _ _ _ _ (Or.inl rfl) (fun _ => rfl)

/-- Claim C4: for every supported format, whenever `download_single`
returns a path, that path is the scratch directory joined with the first
entry of the directory listing, in listing order, whose name starts with
the template prefix (the template name up to its first dot) and whose
lowercased name ends with the requested format string — the case
insensitive extension test of the source. -/
theorem C4_locator_first_match
    (url fmt quality tpl p : String)
    (engine : YdlOpts → String → Nat → Except String Unit)
    (listdir : List String)
    (hfmt : fmt = "mp4" ∨ fmt = "mp3")
    (hok : (download_single url fmt quality tpl engine listdir).1 = Except.ok p) :
    ∃ fname,
      listdir.find?
          (fun n => pyStartswith n (templatePfx tpl) &&
            pyEndswith (pyLower n) fmt) =
        some fname ∧
      p = joinPath (dirname tpl) fname := by
  clear hfmt
  unfold download_single at hok
  cases hg : get_ydl_opts fmt quality tpl with
  | error m => rw [hg] at hok; simp at hok
  | ok opts =>
    rw [hg] at hok
    simp only at hok
    cases hl : (attemptLoop (fun a => engine opts url a)
        (List.range MAX_DOWNLOAD_RETRIES)).1 with
    | error e => rw [hl] at hok; simp at hok
    | ok u =>
      rw [hl] at hok
      rw [locate_eq_find] at hok
      cases hf : listdir.find?
          (fun n => pyStartswith n (templatePfx tpl) &&
            pyEndswith (pyLower n) fmt) with
      | none => rw [hf] at hok; simp at hok
      | some fname =>
        rw [hf] at hok
        simp only [Option.map_some] at hok
        exact ⟨fname, rfl, (Except.ok.injEq _ _ ▸ hok).symm⟩

/-- Concrete instance of C4: with listing `[dl.part, dl.MP3]` and format
mp3, the returned path is the join of the directory with `dl.MP3`, the
first matching entry (matched case insensitively). -/
theorem C4_witness :
    ∃ fname,
      (["dl.part", "dl.MP3"].find?
          (fun n => pyStartswith n (templatePfx "/t/dl.%(ext)s") &&
            pyEndswith (pyLower n) "mp3")) =
        some fname ∧
      "/t/dl.MP3" = joinPath (dirname "/t/dl.%(ext)s") fname :=
  C4_locator_first_match "https://x/audio" "mp3" "best" "/t/dl.%(ext)s"
    "/t/dl.MP3" (fun _ _ _ => Except.ok ()) ["dl.part", "dl.MP3"]
    (Or.inr rfl) rfl

/-- Claim C5: when the engine call succeeds but no listing entry passes the
prefix and extension test, `download_single` raises `FileNotFoundError`
whose message carries the requested format and the template prefix. -/
theorem C5_artifact_not_found
    (url fmt quality tpl : String)
    (engine : YdlOpts → String → Nat → Except String Unit)
    (listdir : List String)
    (hfmt : fmt = "mp4" ∨ fmt = "mp3")
    (h0 : ∀ opts, engine opts url 0 = Except.ok ())
    (hnone : ∀ n ∈ listdir,
      ¬(pyStartswith n (templatePfx tpl) && pyEndswith (pyLower n) fmt) = true) :
    (download_single url fmt quality tpl engine listdir).1 =
      Except.error (DownloadError.fileNotFound
        ("No ." ++ fmt ++ " file found for " ++ templatePfx tpl)) := by
  have hr : List.range MAX_DOWNLOAD_RETRIES = [0, 1] := rfl
  have hloc : locate (dirname tpl) (templatePfx tpl) fmt listdir = none := by
    rw [locate_eq_find]
    rw [List.find?_eq_none.mpr hnone]
    rfl
  rcases hfmt with h | h <;> subst h <;>
    simp [download_single, get_ydl_opts, hr, attemptLoop, h0, hloc]

/-- Concrete instance of C5 (Scenario E of the spec): the engine succeeds
but the directory holds only `dl.part`, so the mp3 request fails with the
FileNotFoundError message naming the format and the prefix. -/
theorem C5_witness :
    (download_single "https://x/audio" "mp3" "best" "/t/dl.%(ext)s"
        (fun _ _ _ => Except.ok ()) ["dl.part"]).1 =
      Except.error (DownloadError.fileNotFound
        ("No ." ++ "mp3" ++ " file found for " ++ templatePfx "/t/dl.%(ext)s")) :=
  C5_artifact_not_found _ _ _ _ _ _ (Or.inr rfl) (fun _ => rfl) (by decide)

/-- Claim C6 as stated is false: the view adds the history row only after
`download_single` has returned a path, so a failing request is handled
(answered with a 500) yet leaves the history store unchanged — here a
`wav` request against an empty store appends no record at all. -/
theorem C6_counterexample :
    (download_get (some "https://x/video") (some "wav") none
        (fun _ _ _ => Except.ok ()) [] "/t" 0 [] false).response.status = 500 ∧
    (download_get (some "https://x/video") (some "wav") none
        (fun _ _ _ => Except.ok ()) [] "/t" 0 [] false).hist = [] :=
  ⟨rfl, rfl⟩

/-- Claim C6, amended: only successfully completed requests are recorded —
a request answered with 200 appends exactly one record carrying its url,
format and quality, while a request that fails appends nothing. -/
theorem C6_success_only_recording
    (url? fmt? quality? : Option String)
    (engine : YdlOpts → String → Nat → Except String Unit)
    (listdir : List String) (tmp : String) (now : Nat)
    (hist : List HistoryRecord) (rmFail : Bool)
    (hu : pyFalsy url? = false) (hf : pyFalsy fmt? = false) :
    ((download_get url? fmt? quality? engine listdir tmp now hist rmFail).response.status = 200 →
      (download_get url? fmt? quality? engine listdir tmp now hist rmFail).hist =
        hist ++ [{ id := hist.length + 1, url := url?.getD "",
                   file_format := fmt?.getD "",
                   quality := quality?.getD "best", timestamp := now }]) ∧
    ((download_get url? fmt? quality? engine listdir tmp now hist rmFail).response.status ≠ 200 →
      (download_get url? fmt? quality? engine listdir tmp now hist rmFail).hist = hist) := by
  have hrm : rmtree true rmFail = Except.ok () := by simp [rmtree]
  rcases hds : download_single (url?.getD "") (fmt?.getD "") (quality?.getD "best")
      (joinPath tmp "dl.%(ext)s") engine listdir with ⟨r, n⟩
  cases r with
  | ok path =>
    refine ⟨fun _ => ?_, fun hne => absurd ?_ hne⟩ <;>
      simp [download_get, hu, hf, hds, hrm, dbAppend]
  | error e =>
    refine ⟨fun h200 => ?_, fun _ => ?_⟩
    · exfalso
      revert h200
      simp [download_get, hu, hf, hds, hrm]
    · simp [download_get, hu, hf, hds, hrm]

/-- Concrete instance of the amended C6: a successful mp4 request against
an empty store appends exactly its one record. -/
theorem C6_witness :
    (download_get (some "https://x/video") (some "mp4") none
        (fun _ _ _ => Except.ok ()) ["dl.mp4"] "/t" 5 [] false).hist =
      [] ++ [{ id := 1, url := "https://x/video", file_format := "mp4",
               quality := "best", timestamp := 5 }] :=
  (C6_success_only_recording (some "https://x/video") (some "mp4") none
    (fun _ _ _ => Except.ok ()) ["dl.mp4"] "/t" 5 [] false rfl rfl).1 rfl

/-- Claim C7: option resolution never reads the quality hint — any two
quality values resolve to identical engine options for every format — and
for mp3 the options always carry the FFmpegExtractAudio postprocessor at
the fixed 192 quality descriptor. -/
theorem C7_options_depend_only_on_format :
    (∀ fmt q1 q2 tpl, get_ydl_opts fmt q1 tpl = get_ydl_opts fmt q2 tpl) ∧
    (∀ quality tpl, get_ydl_opts "mp3" quality tpl =
      Except.ok { format := "bestaudio/best", outtmpl := tpl,
                  merge_output_format := none,
                  postprocessors := [{ key := "FFmpegExtractAudio",
                                       preferredcodec := "mp3",
                                       preferredquality := "192" }],
                  retries := MAX_DOWNLOAD_RETRIES }) :=
  ⟨fun _ _ _ _ => rfl, fun _ _ => rfl⟩

/-- Claim C8: once the scratch directory exists (url and format present),
every exit path of the view runs the scratch removal exactly once; the
whole outcome is the same whether or not the deletion hits an error, and
the removal with `ignore_errors` set never raises — so running it a second
time, defensively, also returns normally and cannot affect the result. -/
theorem C8_cleanup_on_every_exit
    (url? fmt? quality? : Option String)
    (engine : YdlOpts → String → Nat → Except String Unit)
    (listdir : List String) (tmp : String) (now : Nat)
    (hist : List HistoryRecord) (f1 f2 : Bool)
    (hu : pyFalsy url? = false) (hf : pyFalsy fmt? = false) :
    (download_get url? fmt? quality? engine listdir tmp now hist f1).cleanupCalls = 1 ∧
    download_get url? fmt? quality? engine listdir tmp now hist f1 =
      download_get url? fmt? quality? engine listdir tmp now hist f2 ∧
    rmtree true f1 = Except.ok () ∧ rmtree true f2 = Except.ok () := by
  have hrm : ∀ f : Bool, rmtree true f = Except.ok () := fun f => by simp [rmtree]
  refine ⟨?_, ?_, hrm f1, hrm f2⟩ <;>
    simp [download_get, hu, hf, hrm]

/-- Concrete instance of C8: with a deletion error on the first removal
and none on the second, the outcome is identical, one cleanup runs, and
neither removal raises. -/
theorem C8_witness :
    (download_get (some "https://x/video") (some "mp4") none
        (fun _ _ _ => Except.ok ()) ["dl.mp4"] "/t" 5 [] true).cleanupCalls = 1 ∧
    download_get (some "https://x/video") (some "mp4") none
        (fun _ _ _ => Except.ok ()) ["dl.mp4"] "/t" 5 [] true =
      download_get (some "https://x/video") (some "mp4") none
        (fun _ _ _ => Except.ok ()) ["dl.mp4"] "/t" 5 [] false ∧
    rmtree true true = Except.ok () ∧ rmtree true false = Except.ok () :=
  C8_cleanup_on_every_exit (some "https://x/video") (some "mp4") none
    (fun _ _ _ => Except.ok ()) ["dl.mp4"] "/t" 5 [] true false rfl rfl

/-- Claim C9: the history view returns all stored records, sorted by
timestamp descending. -/
theorem C9_history_sorted_descending (recs : List HistoryRecord) :
    List.Sorted (fun a b => b.timestamp ≤ a.timestamp) (history recs) ∧
    (history recs).Perm recs := by
  constructor
  · have hs := @List.sorted_mergeSort HistoryRecord
      (fun a b => Nat.ble b.timestamp a.timestamp)
      (fun a b c => by simp only [Nat.ble_eq]; omega)
      (fun a b => by simp only [Bool.or_eq_true, Nat.ble_eq]; omega) recs
    exact hs.imp (fun h => Nat.le_of_ble_eq_true h)
  · exact List.mergeSort_perm recs _

/-- Claim C10: whenever the orchestrator raises — unsupported format,
engine exhaustion or artifact not found — the view answers with status 500
and a JSON body carrying exactly that exception message; the error kinds
are not distinguished by status code. -/
theorem C10_errors_map_to_500
    (url? fmt? quality? : Option String)
    (engine : YdlOpts → String → Nat → Except String Unit)
    (listdir : List String) (tmp : String) (now : Nat)
    (hist : List HistoryRecord) (rmFail : Bool) (e : DownloadError)
    (hu : pyFalsy url? = false) (hf : pyFalsy fmt? = false)
    (he : (download_single (url?.getD "") (fmt?.getD "") (quality?.getD "best")
        (joinPath tmp "dl.%(ext)s") engine listdir).1 = Except.error e) :
    (download_get url? fmt? quality? engine listdir tmp now hist rmFail).response =
      { status := 500, body := Body.jsonError e.message } := by
  have hrm : rmtree true rmFail = Except.ok () := by simp [rmtree]
  rcases hds : download_single (url?.getD "") (fmt?.getD "") (quality?.getD "best")
      (joinPath tmp "dl.%(ext)s") engine listdir with ⟨r, n⟩
  rw [hds] at he
  simp only at he
  subst he
  simp [download_get, hu, hf, hds, hrm]

/-- Concrete instance of C10: a `wav` request is answered 500 with the
ValueError message in the JSON body. -/
theorem C10_witness :
    (download_get (some "https://x/video") (some "wav") none
        (fun _ _ _ => Except.ok ()) [] "/t" 0 [] false).response =
      { status := 500, body := Body.jsonError "Unsupported format: wav" } :=
  C10_errors_map_to_500 (some "https://x/video") (some "wav") none
    (fun _ _ _ => Except.ok ()) [] "/t" 0 [] false
    (DownloadError.unsupportedFormat "Unsupported format: wav") rfl rfl rfl

end JustPaste
